import Mathlib

/-!
Verification of the `python_outreach` HTTP client (`src/python_outreach/client.py`).

The development shallowly embeds the pieces of `OutreachClient` that the
properties under scrutiny depend on:

* the response handling of `request` (lines 84-119): status classification,
  the in-attempt `time.sleep` on 429, `raise_for_status`, and the quota check;
* the `backoff.on_exception(backoff.expo, (Server5xxError, RateLimitError,
  ConnectionError), max_tries=5, factor=3)` decorator on `request`;
* the token-validity check at the top of `request` (lines 61-62) together
  with `refresh` (lines 34-48) and the `Authorization` header (line 76).

Machine behaviour notes reflected in the model:

* `backoff.expo(base=2, factor=3)` yields the nominal waits `3 * 2 ^ n` for
  the n-th retry (n = 0, 1, ...).  backoff's default `jitter=full_jitter`
  draws the actual sleep uniformly from `[0, value]`; the embedding models
  the nominal (no-jitter) schedule, which is the deterministic content.
* Python `/` on two ints is true division; it raises `ZeroDivisionError`
  when the divisor is 0, which the embedding makes explicit.
* reading a missing header raises `KeyError`; the embedding makes this an
  explicit `missingHeader` error.
* time is an abstract `Int` timestamp (seconds); `datetime.utcnow()` at a
  given program point is passed in as a `now` argument.
-/

/-- An HTTP response as the client observes it: status code, the specific
headers `client.py` reads (absent header = the key is missing), and the
decoded body (`response.json()`), abstracted to a `String` payload. -/
structure HttpResponse where
  status : Nat
  retryAfter : Option Int
  xRateLimitRemaining : Option Int
  xRateLimitLimit : Option Int
  xRateLimitReset : Option Int
  body : String
deriving DecidableEq, Repr

/-- The errors one attempt of `request` can raise: `Server5xxError`,
`RateLimitError`, `ValidationError`, `requests.HTTPError` (from
`raise_for_status`), `requests.exceptions.ConnectionError`,
`ZeroDivisionError` (from the quota computation) and `KeyError`
(a header read on a missing key). -/
inductive ReqError where
  | server5xx (body : String)
  | rateLimited (retryAfter : Int)
  | validationError
  | otherHttp (status : Nat)
  | connectionError
  | zeroDivision
  | missingHeader (name : String)
deriving DecidableEq, Repr

/-- The exception classes listed in the `backoff.on_exception` decorator:
`Server5xxError`, `RateLimitError`, `ConnectionError`.  Everything else
propagates immediately. -/
def isRetryable : ReqError → Bool
  | ReqError.server5xx _ => true
  | ReqError.rateLimited _ => true
  | ReqError.connectionError => true
  | _ => false

/-- The body of `request` after the transport call (client.py lines 84-119):
classify the status, sleep the `retry-after` value on 429, run
`raise_for_status`, then run the quota check on success.  Returns the list
of `time.sleep` durations performed (in seconds, as rationals) together with
either the raised error or the decoded body. -/
def processResponse (skipQuota : Bool) (quotaLimit : Option ℚ) (now : Int)
    (r : HttpResponse) : List ℚ × Except ReqError String :=
  if 500 ≤ r.status then
    ([], Except.error (ReqError.server5xx r.body))
  else if r.status = 429 then
    match r.retryAfter with
    | none => ([], Except.error (ReqError.missingHeader "retry-after"))
    | some t => ([(t : ℚ)], Except.error (ReqError.rateLimited t))
  else if r.status = 422 then
    ([], Except.error ReqError.validationError)
  else if 400 ≤ r.status then
    ([], Except.error (ReqError.otherHttp r.status))
  else
    match quotaLimit with
    | none => ([], Except.ok r.body)
    | some q =>
      if !skipQuota && (q != 0) then
        match r.xRateLimitRemaining with
        | none => ([], Except.error (ReqError.missingHeader "x-ratelimit-remaining"))
        | some remaining =>
          if remaining = 0 then
            ([], Except.error ReqError.zeroDivision)
          else
            -- source line 116: divides remaining by remaining, not by the limit header
            let quotaUsed : ℚ := 1 - (remaining : ℚ) / (remaining : ℚ)
            if q < quotaUsed then
              match r.xRateLimitReset with
              | none => ([], Except.error (ReqError.missingHeader "x-ratelimit-reset"))
              | some reset => ([((reset - now : Int) : ℚ) + 10], Except.ok r.body)
            else ([], Except.ok r.body)
      else ([], Except.ok r.body)

/-- Modelled from the spec: the quota-used formula the source comment on
line 115 documents, `1 - (x-ratelimit-remaining / x-ratelimit-limit)`.
The code on line 116 instead divides remaining by remaining; this
definition exists to compare the two. -/
def quotaUsedIntended (remaining limit : Int) : ℚ :=
  1 - (remaining : ℚ) / (limit : ℚ)

/-- What the transport yields for one attempt: a completed response, or a
connection-level failure (`requests.exceptions.ConnectionError`). -/
inductive AttemptOutcome where
  | response (r : HttpResponse)
  | connFailure
deriving DecidableEq, Repr

/-- One attempt: issue the transport call and run the response handling. -/
def attemptOnce (skipQuota : Bool) (quotaLimit : Option ℚ) (now : Int) :
    AttemptOutcome → List ℚ × Except ReqError String
  | AttemptOutcome.connFailure => ([], Except.error ReqError.connectionError)
  | AttemptOutcome.response r => processResponse skipQuota quotaLimit now r

/-- Nominal wait yielded by `backoff.expo` with `factor=3` (and the default
`base=2`) before the n-th retry, n = 0, 1, ...: `3 * 2 ^ n` seconds.
backoff's default full jitter draws the actual sleep from `[0, 3 * 2 ^ n]`;
the model uses the nominal value. -/
def backoffDelay (n : Nat) : Nat := 3 * 2 ^ n

instance {ε α : Type} [DecidableEq ε] [DecidableEq α] : DecidableEq (Except ε α)
  | Except.ok x, Except.ok y =>
    if h : x = y then isTrue (by rw [h]) else isFalse (fun hc => h (Except.ok.inj hc))
  | Except.error x, Except.error y =>
    if h : x = y then isTrue (by rw [h]) else isFalse (fun hc => h (Except.error.inj hc))
  | Except.ok _, Except.error _ => isFalse (fun hc => Except.noConfusion hc)
  | Except.error _, Except.ok _ => isFalse (fun hc => Except.noConfusion hc)

/-- Outcome of a whole decorated `request` call: every sleep performed (both
in-attempt sleeps and backoff waits, in order), the number of attempts made,
and the final result. -/
structure RunResult where
  sleeps : List ℚ
  attempts : Nat
  result : Except ReqError String
deriving DecidableEq, Repr

/-- One step of the `backoff.on_exception` loop, given the attempt's
`(sleeps, outcome)` and the result of the remaining retries: succeed, or
re-raise a non-retryable error / exhausted budget, or wait the nominal
backoff delay and continue.  `fuel` is the number of tries remaining after
this one; `i` is this attempt's 0-based index. -/
def stepResult (i fuel : Nat) (att : List ℚ × Except ReqError String)
    (rest : RunResult) : RunResult :=
  match att.2 with
  | Except.ok b => ⟨att.1, 1, Except.ok b⟩
  | Except.error e =>
    if isRetryable e && fuel != 0 then
      ⟨att.1 ++ (backoffDelay i : ℚ) :: rest.sleeps, 1 + rest.attempts, rest.result⟩
    else ⟨att.1, 1, Except.error e⟩

/-- The retry loop of `backoff.on_exception` with the transport abstracted
as a map from attempt index to outcome.  `fuel` is the remaining try budget;
the `fuel = 0` base case is never reached from a positive budget. -/
def retryGo (skipQuota : Bool) (quotaLimit : Option ℚ) (now : Int)
    (transport : Nat → AttemptOutcome) : Nat → Nat → RunResult
  | _, 0 => ⟨[], 0, Except.error ReqError.connectionError⟩
  | i, fuel + 1 =>
    stepResult i fuel (attemptOnce skipQuota quotaLimit now (transport i))
      (retryGo skipQuota quotaLimit now transport (i + 1) fuel)

/-- The decorated `request` call: `max_tries=5`. -/
def request (skipQuota : Bool) (quotaLimit : Option ℚ) (now : Int)
    (transport : Nat → AttemptOutcome) : RunResult :=
  retryGo skipQuota quotaLimit now transport 0 5

/-- The token fields of `OutreachClient`: `__access_token` and
`__expires_at`, both initialised to `None`. -/
structure ClientState where
  accessToken : Option String
  expiresAt : Option Int
deriving DecidableEq, Repr

/-- Initial state set in `__init__`. -/
def initState : ClientState := ⟨none, none⟩

/-- The JSON body a successful token-endpoint call returns. -/
structure TokenResponse where
  access_token : String
  expires_in : Int
deriving DecidableEq, Repr

/-- The condition on client.py line 61:
`url is None and (access_token is None or expires_at <= utcnow())`.
The `expiresAt = none` branch with a token present would be a Python
`TypeError`; it is unreachable from `initState` (the refresh always sets
both fields together) and the model returns `false` there. -/
def needsRefresh (hasUrl : Bool) (st : ClientState) (now : Int) : Bool :=
  !hasUrl && (st.accessToken.isNone ||
    (match st.expiresAt with
     | some e => decide (e ≤ now)
     | none => false))

/-- The `refresh` method (lines 34-48) given the result of its inner
`request`: on success store the new token and set
`expires_at = now + (expires_in - 10)`; on any raised error the assignments
are never reached, so the state is returned unchanged together with the
propagating error. -/
def refreshStep (st : ClientState) (now : Int)
    (reqResult : Except ReqError TokenResponse) : ClientState × Option ReqError :=
  match reqResult with
  | Except.error e => (st, some e)
  | Except.ok data =>
    (⟨some data.access_token, some (now + (data.expires_in - 10))⟩, none)

/-- The token step at the top of `request` (lines 61-62): run `refresh`
when `needsRefresh` holds.  Returns the resulting state, the number of
`refresh()` invocations performed (0 or 1), and the error if the refresh
raised. -/
def requestTokenStep (st : ClientState) (hasUrl : Bool) (now : Int)
    (refreshResult : Except ReqError TokenResponse) :
    ClientState × Nat × Option ReqError :=
  if needsRefresh hasUrl st now then
    match refreshStep st now refreshResult with
    | (st2, err) => (st2, 1, err)
  else (st, 0, none)

/-- The `Authorization` header set on line 76:
`'Bearer {}'.format(access_token)`; Python formats `None` as the string
`"None"`. -/
def authHeader (st : ClientState) : String :=
  "Bearer " ++ (match st.accessToken with
    | some t => t
    | none => "None")

/-- Operations that can touch the token fields.  Only `refresh` assigns
them anywhere in the source, so a history of the client is a list of
refresh attempts, each with its wall-clock time and its inner request's
result. -/
inductive ClientOp where
  | refreshAt (now : Int) (result : Except ReqError TokenResponse)
deriving DecidableEq, Repr

/-- Effect of one operation on the token state. -/
def applyOp (st : ClientState) : ClientOp → ClientState
  | ClientOp.refreshAt now res => (refreshStep st now res).1

/-- Run a history of operations from a starting state. -/
def runOps (st : ClientState) (ops : List ClientOp) : ClientState :=
  ops.foldl applyOp st

/-- Concrete 503 response used in witnesses. -/
def resp503 : HttpResponse := ⟨503, none, none, none, none, "server boom"⟩

/-- Concrete 429 response with `retry-after: 30`. -/
def resp429 : HttpResponse := ⟨429, some 30, none, none, none, "limited"⟩

/-- Concrete successful response with no rate-limit headers. -/
def resp200 : HttpResponse := ⟨200, none, none, none, none, "payload"⟩

/-- Concrete 422 response. -/
def resp422 : HttpResponse := ⟨422, none, none, none, none, "excluded email"⟩

/-- Concrete successful response with `x-ratelimit-remaining: 10`,
`x-ratelimit-limit: 100`, `x-ratelimit-reset: 1000`. -/
def respQuota : HttpResponse := ⟨200, none, some 10, some 100, some 1000, "quota page"⟩

/-- Concrete successful response with `x-ratelimit-remaining: 0`. -/
def respZeroRemaining : HttpResponse := ⟨200, none, some 0, some 100, some 1000, "empty quota"⟩

/-- Concrete token-endpoint success body. -/
def tok3600 : TokenResponse := ⟨"freshTok", 3600⟩

/-- Client state holding a token that expired at time 50. -/
def stStale : ClientState := ⟨some "staleTok", some 50⟩

/- ## Helper lemmas for the retry loop -/

theorem retryGo_succ (sq : Bool) (q : Option ℚ) (now : Int)
    (transport : Nat → AttemptOutcome) (i fuel : Nat) :
    retryGo sq q now transport i (fuel + 1) =
      stepResult i fuel (attemptOnce sq q now (transport i))
        (retryGo sq q now transport (i + 1) fuel) := rfl

theorem stepResult_ok (i fuel : Nat) (att : List ℚ × Except ReqError String)
    (rest : RunResult) (b : String) (h : att.2 = Except.ok b) :
    stepResult i fuel att rest = ⟨att.1, 1, Except.ok b⟩ := by
  unfold stepResult
  rw [h]

theorem stepResult_retry (i fuel : Nat) (att : List ℚ × Except ReqError String)
    (rest : RunResult) (e : ReqError) (h : att.2 = Except.error e)
    (hr : isRetryable e = true) (hf : fuel ≠ 0) :
    stepResult i fuel att rest =
      ⟨att.1 ++ (backoffDelay i : ℚ) :: rest.sleeps, 1 + rest.attempts, rest.result⟩ := by
  unfold stepResult
  rw [h]
  simp [hr, hf]

theorem stepResult_stop (i fuel : Nat) (att : List ℚ × Except ReqError String)
    (rest : RunResult) (e : ReqError) (h : att.2 = Except.error e)
    (hstop : isRetryable e = false ∨ fuel = 0) :
    stepResult i fuel att rest = ⟨att.1, 1, Except.error e⟩ := by
  unfold stepResult
  rw [h]
  rcases hstop with h1 | h1 <;> simp [h1]

theorem retryGo_attempts_le (sq : Bool) (q : Option ℚ) (now : Int)
    (transport : Nat → AttemptOutcome) :
    ∀ fuel i, (retryGo sq q now transport i fuel).attempts ≤ fuel := by
  intro fuel
  induction fuel with
  | zero => intro i; exact Nat.le_refl 0
  | succ n ih =>
    intro i
    rw [retryGo_succ]
    cases hres : (attemptOnce sq q now (transport i)).2 with
    | ok b =>
      rw [stepResult_ok _ _ _ _ _ hres]
      exact Nat.succ_le_succ (Nat.zero_le n)
    | error e =>
      by_cases hr : isRetryable e = true
      · by_cases hf : n = 0
        · rw [stepResult_stop _ _ _ _ _ hres (Or.inr hf)]
          exact Nat.succ_le_succ (Nat.zero_le n)
        · rw [stepResult_retry _ _ _ _ _ hres hr hf]
          have h2 := ih (i + 1)
          show 1 + (retryGo sq q now transport (i + 1) n).attempts ≤ n + 1
          omega
      · rw [stepResult_stop _ _ _ _ _ hres (Or.inl (Bool.eq_false_iff.mpr hr))]
        exact Nat.succ_le_succ (Nat.zero_le n)

/-- Fully unrolled form of the 5-try request loop; definitional. -/
theorem request_unfold (sq : Bool) (q : Option ℚ) (now : Int)
    (transport : Nat → AttemptOutcome) :
    request sq q now transport =
      stepResult 0 4 (attemptOnce sq q now (transport 0))
        (stepResult 1 3 (attemptOnce sq q now (transport 1))
          (stepResult 2 2 (attemptOnce sq q now (transport 2))
            (stepResult 3 1 (attemptOnce sq q now (transport 3))
              (stepResult 4 0 (attemptOnce sq q now (transport 4))
                ⟨[], 0, Except.error ReqError.connectionError⟩)))) := rfl

/- ## Claim theorems -/

/-- C1: every response with status ≥ 500 is classified as the retryable
`Server5xxError`, and the decorated `request` makes at most 5 total
attempts; the nominal backoff delays are strictly increasing, starting at
3 seconds and growing geometrically with ratio 2 (`backoff.expo` has base 2
and `factor=3` only scales it), not ratio 3 as the original claim states. -/
theorem C1_server5xx_retry_schedule (sq : Bool) (q : Option ℚ) (now : Int)
    (r : HttpResponse) (transport : Nat → AttemptOutcome) (n : Nat)
    (h5 : 500 ≤ r.status) :
    processResponse sq q now r = ([], Except.error (ReqError.server5xx r.body)) ∧
    isRetryable (ReqError.server5xx r.body) = true ∧
    (request sq q now transport).attempts ≤ 5 ∧
    backoffDelay 0 = 3 ∧
    backoffDelay (n + 1) = 2 * backoffDelay n ∧
    backoffDelay n < backoffDelay (n + 1) := by
  refine ⟨?_, rfl, retryGo_attempts_le sq q now transport 5 0, rfl, ?_, ?_⟩
  · unfold processResponse
    rw [if_pos h5]
  · unfold backoffDelay
    ring
  · have h2 : 2 ^ n < 2 ^ (n + 1) := Nat.pow_lt_pow_succ (by norm_num)
    unfold backoffDelay
    omega

/-- Witness for C1: status 503, a constant-503 transport, n = 0. -/
theorem C1_witness :
    500 ≤ resp503.status ∧
    (processResponse false none 0 resp503
        = ([], Except.error (ReqError.server5xx resp503.body)) ∧
      isRetryable (ReqError.server5xx resp503.body) = true ∧
      (request false none 0 (fun _ => AttemptOutcome.response resp503)).attempts ≤ 5 ∧
      backoffDelay 0 = 3 ∧
      backoffDelay (0 + 1) = 2 * backoffDelay 0 ∧
      backoffDelay 0 < backoffDelay (0 + 1)) :=
  ⟨by decide,
   C1_server5xx_retry_schedule false none 0 resp503
     (fun _ => AttemptOutcome.response resp503) 0 (by decide)⟩

/-- C1 counterexample: with every attempt answering 503, the waits between
the five attempts are 3, 6, 12, 24 seconds — each delay is twice the
previous one, and the second delay is 6, not 3 × 3 = 9 as a ratio-3
geometric schedule would require. -/
theorem C1_ratio_counterexample :
    (request false none 0 (fun _ => AttemptOutcome.response resp503)).sleeps
      = [3, 6, 12, 24] ∧
    ¬ ((6 : ℚ) = 3 * 3) := by
  refine ⟨?_, by norm_num⟩
  rw [request_unfold]
  simp [stepResult, attemptOnce, processResponse, resp503, isRetryable, backoffDelay]

/-- C4: a 422 response is classified as the fatal `ValidationError`; a call
whose first attempt returns 422 makes exactly one attempt, performs no
sleep, and raises `ValidationError`; neither `ValidationError` nor the
generic HTTP error raised by `raise_for_status` is in the retried
exception list of the backoff decorator. -/
theorem C4_validation_fatal (sq : Bool) (q : Option ℚ) (now : Int)
    (r : HttpResponse) (transport : Nat → AttemptOutcome) (s : Nat)
    (h422 : r.status = 422) (ht : transport 0 = AttemptOutcome.response r) :
    processResponse sq q now r = ([], Except.error ReqError.validationError) ∧
    request sq q now transport = ⟨[], 1, Except.error ReqError.validationError⟩ ∧
    isRetryable ReqError.validationError = false ∧
    isRetryable (ReqError.otherHttp s) = false := by
  have hp : processResponse sq q now r = ([], Except.error ReqError.validationError) := by
    unfold processResponse
    rw [h422]
    norm_num
  refine ⟨hp, ?_, rfl, rfl⟩
  show retryGo sq q now transport 0 5 = _
  rw [retryGo_succ, ht]
  have hatt2 : (attemptOnce sq q now (AttemptOutcome.response r)).2
      = Except.error ReqError.validationError := by
    show (processResponse sq q now r).2 = _
    rw [hp]
  have hatt1 : (attemptOnce sq q now (AttemptOutcome.response r)).1 = ([] : List ℚ) := by
    show (processResponse sq q now r).1 = _
    rw [hp]
  rw [stepResult_stop _ _ _ _ _ hatt2 (Or.inl rfl), hatt1]

/-- Witness for C4: a 422 first response followed by 200s. -/
theorem C4_witness :
    resp422.status = 422 ∧
    (fun i => if i = 0 then AttemptOutcome.response resp422
              else AttemptOutcome.response resp200) 0 = AttemptOutcome.response resp422 ∧
    (processResponse false none 0 resp422 = ([], Except.error ReqError.validationError) ∧
      request false none 0 (fun i => if i = 0 then AttemptOutcome.response resp422
        else AttemptOutcome.response resp200)
          = ⟨[], 1, Except.error ReqError.validationError⟩ ∧
      isRetryable ReqError.validationError = false ∧
      isRetryable (ReqError.otherHttp 404) = false) :=
  ⟨rfl, rfl, C4_validation_fatal false none 0 resp422 _ 404 rfl rfl⟩

/-- C9: when the inner token request raises, the assignments in `refresh`
are never reached, so both stored token fields are unchanged and the error
propagates to the caller. -/
theorem C9_refresh_atomic_on_failure (st : ClientState) (now : Int) (e : ReqError) :
    refreshStep st now (Except.error e) = (st, some e) := rfl

/-- C2 (amended): a 429 response carrying `retry-after: t` makes the attempt
sleep exactly `t` seconds and raise the retryable `RateLimitError`; the
backoff controller then adds its own nominal exponential delay before the
next attempt, so when the second attempt succeeds the waits performed are
`t` seconds followed by the 3-second backoff delay — the total wait before
the next attempt is `t + 3`, not exactly `t` as the original claim states. -/
theorem C2_rate_limited_wait (sq : Bool) (q : Option ℚ) (now : Int)
    (r s : HttpResponse) (t : Int) (transport : Nat → AttemptOutcome)
    (h429 : r.status = 429) (hra : r.retryAfter = some t) (hs : s.status < 400)
    (ht0 : transport 0 = AttemptOutcome.response r)
    (ht1 : transport 1 = AttemptOutcome.response s) :
    processResponse sq q now r = ([(t : ℚ)], Except.error (ReqError.rateLimited t)) ∧
    isRetryable (ReqError.rateLimited t) = true ∧
    (request sq none now transport).sleeps = [(t : ℚ), (backoffDelay 0 : ℚ)] ∧
    (request sq none now transport).attempts = 2 := by
  have hp : ∀ q' : Option ℚ, processResponse sq q' now r
      = ([(t : ℚ)], Except.error (ReqError.rateLimited t)) := by
    intro q'
    unfold processResponse
    rw [h429, hra]
    norm_num
  have hss : processResponse sq none now s = ([], Except.ok s.body) := by
    have h1 : ¬ (500 ≤ s.status) := by omega
    have h2 : ¬ (s.status = 429) := by omega
    have h3 : ¬ (s.status = 422) := by omega
    have h4 : ¬ (400 ≤ s.status) := by omega
    unfold processResponse
    rw [if_neg h1, if_neg h2, if_neg h3, if_neg h4]
  have hreq : request sq none now transport =
      ⟨[(t : ℚ), (backoffDelay 0 : ℚ)], 2, Except.ok s.body⟩ := by
    rw [request_unfold, ht0, ht1]
    have ha0 : attemptOnce sq none now (AttemptOutcome.response r)
        = ([(t : ℚ)], Except.error (ReqError.rateLimited t)) := hp none
    have ha1 : attemptOnce sq none now (AttemptOutcome.response s)
        = ([], Except.ok s.body) := hss
    rw [ha0, ha1]
    simp [stepResult, isRetryable]
  exact ⟨hp q, rfl, by rw [hreq], by rw [hreq]⟩

/-- Witness for C2: `retry-after: 30` then a 200. -/
theorem C2_witness :
    resp429.status = 429 ∧ resp429.retryAfter = some 30 ∧ resp200.status < 400 ∧
    (processResponse false none 0 resp429
        = ([(30 : ℚ)], Except.error (ReqError.rateLimited 30)) ∧
      isRetryable (ReqError.rateLimited 30) = true ∧
      (request false none 0 (fun i => if i = 0 then AttemptOutcome.response resp429
          else AttemptOutcome.response resp200)).sleeps
        = [(30 : ℚ), (backoffDelay 0 : ℚ)] ∧
      (request false none 0 (fun i => if i = 0 then AttemptOutcome.response resp429
          else AttemptOutcome.response resp200)).attempts = 2) :=
  ⟨rfl, rfl, by decide,
   C2_rate_limited_wait false none 0 resp429 resp200 30 _ rfl rfl (by decide) rfl rfl⟩

/-- C2 counterexample: with a first response of 429 `retry-after: 30` and a
second of 200, the waits before the next attempt are 30 seconds (in-attempt
sleep) plus 3 seconds (backoff delay), totalling 33 seconds, not exactly
30. -/
theorem C2_wait_counterexample :
    (request false none 0 (fun i => if i = 0 then AttemptOutcome.response resp429
        else AttemptOutcome.response resp200)).sleeps = [30, 3] ∧
    List.sum [(30 : ℚ), 3] = 33 ∧ ¬ ((33 : ℚ) = 30) := by
  refine ⟨?_, by norm_num, by norm_num⟩
  rw [request_unfold]
  simp [stepResult, attemptOnce, processResponse, resp429, resp200, isRetryable, backoffDelay]

/-- C3: when every attempt fails with a retryable outcome (`Server5xxError`,
`RateLimitError`, or a connection failure), exactly 5 total attempts are
made and the error classified on the 5th attempt is raised to the caller
rather than retried further or swallowed. -/
theorem C3_retry_budget_exhausted (sq : Bool) (q : Option ℚ) (now : Int)
    (transport : Nat → AttemptOutcome)
    (h : ∀ i, i < 5 → ∃ e, (attemptOnce sq q now (transport i)).2 = Except.error e
      ∧ isRetryable e = true) :
    (request sq q now transport).attempts = 5 ∧
    ∃ e, (attemptOnce sq q now (transport 4)).2 = Except.error e ∧
      (request sq q now transport).result = Except.error e ∧ isRetryable e = true := by
  obtain ⟨e0, he0, hr0⟩ := h 0 (by norm_num)
  obtain ⟨e1, he1, hr1⟩ := h 1 (by norm_num)
  obtain ⟨e2, he2, hr2⟩ := h 2 (by norm_num)
  obtain ⟨e3, he3, hr3⟩ := h 3 (by norm_num)
  obtain ⟨e4, he4, hr4⟩ := h 4 (by norm_num)
  have key : (request sq q now transport).attempts = 5 ∧
      (request sq q now transport).result = Except.error e4 := by
    rw [request_unfold]
    rw [stepResult_stop 4 0 _ _ _ he4 (Or.inr rfl)]
    rw [stepResult_retry 3 1 _ _ _ he3 hr3 (by norm_num)]
    rw [stepResult_retry 2 2 _ _ _ he2 hr2 (by norm_num)]
    rw [stepResult_retry 1 3 _ _ _ he1 hr1 (by norm_num)]
    rw [stepResult_retry 0 4 _ _ _ he0 hr0 (by norm_num)]
    exact ⟨rfl, rfl⟩
  exact ⟨key.1, e4, he4, key.2, hr4⟩

/-- Witness for C3: a transport answering 503 on every attempt. -/
theorem C3_witness :
    (∀ i, i < 5 → ∃ e, (attemptOnce false none 0
        ((fun _ => AttemptOutcome.response resp503) i)).2 = Except.error e ∧
        isRetryable e = true) ∧
    ((request false none 0 (fun _ => AttemptOutcome.response resp503)).attempts = 5 ∧
      ∃ e, (attemptOnce false none 0 ((fun _ => AttemptOutcome.response resp503) 4)).2
          = Except.error e ∧
        (request false none 0 (fun _ => AttemptOutcome.response resp503)).result
          = Except.error e ∧ isRetryable e = true) :=
  ⟨fun _ _ => ⟨ReqError.server5xx "server boom", rfl, rfl⟩,
   C3_retry_budget_exhausted false none 0 _
     (fun _ _ => ⟨ReqError.server5xx "server boom", rfl, rfl⟩)⟩

/-- C5: with `x-ratelimit-remaining = 10`, `x-ratelimit-limit = 100` the
intended consumed fraction `1 - remaining/limit` is 0.9, exceeding the
configured `quota_limit = 0.85`, so the claimed behaviour is a sleep until
`reset + 10`; the code instead computes `1 - remaining/remaining = 0` and
performs no sleep with either the 0.85 or the 0.95 threshold. -/
theorem C5_quota_divides_remaining_by_itself :
    quotaUsedIntended 10 100 = 9 / 10 ∧
    (85 : ℚ) / 100 < 9 / 10 ∧
    processResponse false (some (85 / 100)) 0 respQuota = ([], Except.ok "quota page") ∧
    processResponse false (some (95 / 100)) 0 respQuota = ([], Except.ok "quota page") := by
  refine ⟨by norm_num [quotaUsedIntended], by norm_num, ?_, ?_⟩ <;>
    norm_num [processResponse, respQuota]

/-- C10: on a successful (status < 400) response whose
`x-ratelimit-remaining` header is 0, with a truthy `quota_limit`
configured and quota not skipped, the quota computation divides by the
zero remaining value and the call fails with `ZeroDivisionError` instead
of returning the decoded body. -/
theorem C10_quota_zero_remaining_division (q : ℚ) (now : Int) (r : HttpResponse)
    (hq : q ≠ 0) (hst : r.status < 400) (hrem : r.xRateLimitRemaining = some 0) :
    (processResponse false (some q) now r).2 = Except.error ReqError.zeroDivision := by
  have h1 : ¬ (500 ≤ r.status) := by omega
  have h2 : ¬ (r.status = 429) := by omega
  have h3 : ¬ (r.status = 422) := by omega
  have h4 : ¬ (400 ≤ r.status) := by omega
  unfold processResponse
  rw [if_neg h1, if_neg h2, if_neg h3, if_neg h4, hrem]
  simp [hq]

/-- Witness for C10: `quota_limit = 1`, a 200 response with
`x-ratelimit-remaining: 0`. -/
theorem C10_witness :
    (1 : ℚ) ≠ 0 ∧ respZeroRemaining.status < 400 ∧
    respZeroRemaining.xRateLimitRemaining = some 0 ∧
    (processResponse false (some 1) 0 respZeroRemaining).2
      = Except.error ReqError.zeroDivision :=
  ⟨by norm_num, by decide, rfl,
   C10_quota_zero_remaining_division 1 0 respZeroRemaining (by norm_num) (by decide) rfl⟩

/- ## Token-manager helper lemmas -/

theorem needsRefresh_of_expired (st : ClientState) (now : Int)
    (hcond : st.accessToken = none ∨ ∃ e, st.expiresAt = some e ∧ e ≤ now) :
    needsRefresh false st now = true := by
  unfold needsRefresh
  rcases hcond with h | ⟨e, he, hle⟩
  · simp [h]
  · rw [he]
    simp [hle]

theorem needsRefresh_of_valid (st : ClientState) (now : Int) (tok : String) (e : Int)
    (ha : st.accessToken = some tok) (he : st.expiresAt = some e) (hlt : now < e) :
    needsRefresh false st now = false := by
  unfold needsRefresh
  rw [ha, he]
  simp
  omega

theorem runOps_append (st : ClientState) (ops : List ClientOp) (op : ClientOp) :
    runOps st (ops ++ [op]) = applyOp (runOps st ops) op := by
  unfold runOps
  rw [List.foldl_append]
  rfl

/-- C6 (amended): for a call that does not supply an absolute url, an
absent or expired token (`expires_at ≤ now`) triggers exactly one refresh
before the request, and a token whose expiry is in the future triggers
none; a call supplying an absolute url never triggers a refresh, because
the code keys the whole check on `url is None`. -/
theorem C6_refresh_once_per_expiry (st : ClientState) (now : Int)
    (res : Except ReqError TokenResponse) :
    ((st.accessToken = none ∨ ∃ e, st.expiresAt = some e ∧ e ≤ now) →
      (requestTokenStep st false now res).2.1 = 1) ∧
    (∀ tok e, st.accessToken = some tok → st.expiresAt = some e → now < e →
      (requestTokenStep st false now res).2.1 = 0) ∧
    (requestTokenStep st true now res).2.1 = 0 := by
  refine ⟨?_, ?_, rfl⟩
  · intro hcond
    unfold requestTokenStep
    rw [needsRefresh_of_expired st now hcond]
    rfl
  · intro tok e ha he hlt
    unfold requestTokenStep
    rw [needsRefresh_of_valid st now tok e ha he hlt]
    rfl

/-- Witness for C6: the initial state (no token held), a path call at
time 0. -/
theorem C6_witness :
    (initState.accessToken = none ∨ ∃ e, initState.expiresAt = some e ∧ e ≤ 0) ∧
    (requestTokenStep initState false 0 (Except.ok tok3600)).2.1 = 1 :=
  ⟨Or.inl rfl,
   (C6_refresh_once_per_expiry initState 0 (Except.ok tok3600)).1 (Or.inl rfl)⟩

/-- C6 counterexample: a call that supplies an absolute url while no token
is held performs zero refresh calls, not exactly one as the claim requires
for every call. -/
theorem C6_url_skip_counterexample :
    initState.accessToken = none ∧
    (requestTokenStep initState true 0 (Except.ok tok3600)).2.1 = 0 := ⟨rfl, rfl⟩

/-- C7 (amended): any call supplying an absolute url skips the token check
entirely — the state is untouched and no refresh happens; this is how the
token-refresh call (which passes the token-endpoint url) skips it, but it
applies equally to user calls passing `url`.  Every request carries an
`Authorization: Bearer <access_token>` header, and a path call with an
absent or expired token carries the token stored by the refresh it just
performed. -/
theorem C7_auth_header_and_skip (st : ClientState) (now : Int) (r : TokenResponse) :
    requestTokenStep st true now (Except.ok r) = (st, 0, none) ∧
    (∀ tok, st.accessToken = some tok → authHeader st = "Bearer " ++ tok) ∧
    ((st.accessToken = none ∨ ∃ e, st.expiresAt = some e ∧ e ≤ now) →
      authHeader (requestTokenStep st false now (Except.ok r)).1
        = "Bearer " ++ r.access_token) := by
  refine ⟨rfl, ?_, ?_⟩
  · intro tok ha
    unfold authHeader
    rw [ha]
  · intro hcond
    unfold requestTokenStep
    rw [needsRefresh_of_expired st now hcond]
    rfl

/-- Witness for C7: a token expired at time 50, calls at time 100. -/
theorem C7_witness :
    (stStale.accessToken = none ∨ ∃ e, stStale.expiresAt = some e ∧ e ≤ 100) ∧
    requestTokenStep stStale true 100 (Except.ok tok3600) = (stStale, 0, none) ∧
    authHeader stStale = "Bearer staleTok" ∧
    authHeader (requestTokenStep stStale false 100 (Except.ok tok3600)).1
      = "Bearer freshTok" := by
  have h := C7_auth_header_and_skip stStale 100 tok3600
  exact ⟨Or.inr ⟨50, rfl, by norm_num⟩, h.1, h.2.1 "staleTok" rfl,
    h.2.2 (Or.inr ⟨50, rfl, by norm_num⟩)⟩

/-- C7 counterexample: a call supplying an absolute url while the held
token is expired (expiry 50, current time 100) performs no token-validity
check — zero refreshes — and sends the stale bearer token, contradicting
the claim that url-supplying calls are checked and only the refresh call
skips. -/
theorem C7_url_stale_token_counterexample :
    stStale.expiresAt = some 50 ∧ (50 : Int) ≤ 100 ∧
    (requestTokenStep stStale true 100 (Except.ok tok3600)).2.1 = 0 ∧
    authHeader (requestTokenStep stStale true 100 (Except.ok tok3600)).1
      = "Bearer staleTok" := ⟨rfl, by norm_num, rfl, rfl⟩

/-- C8: starting from the initial state, whenever an access token is held
it was stored by some successful refresh in the operation history, and the
stored expiry is exactly that refresh's time plus the provider-declared
lifetime `expires_in` minus the 10-second safety margin. -/
theorem C8_token_expiry_invariant (ops : List ClientOp) (tok : String)
    (h : (runOps initState ops).accessToken = some tok) :
    ∃ t r, ClientOp.refreshAt t (Except.ok r) ∈ ops ∧ r.access_token = tok ∧
      (runOps initState ops).expiresAt = some (t + (r.expires_in - 10)) := by
  induction ops using List.reverseRecOn generalizing tok with
  | nil => simp [runOps, initState] at h
  | append_singleton l op ih =>
    rcases op with ⟨t, res⟩
    cases res with
    | error e =>
      rw [runOps_append] at h ⊢
      obtain ⟨t', r', hmem, htok, hexp⟩ := ih tok h
      exact ⟨t', r', List.mem_append_left _ hmem, htok, hexp⟩
    | ok r =>
      rw [runOps_append] at h ⊢
      have htok : r.access_token = tok := Option.some.inj h
      exact ⟨t, r, List.mem_append_right _ (by simp), htok, rfl⟩

/-- Witness for C8: one successful refresh at time 0 with lifetime 3600. -/
theorem C8_witness :
    (runOps initState [ClientOp.refreshAt 0 (Except.ok tok3600)]).accessToken
      = some "freshTok" ∧
    ∃ t r, ClientOp.refreshAt t (Except.ok r)
        ∈ [ClientOp.refreshAt 0 (Except.ok tok3600)] ∧
      r.access_token = "freshTok" ∧
      (runOps initState [ClientOp.refreshAt 0 (Except.ok tok3600)]).expiresAt
        = some (t + (r.expires_in - 10)) :=
  ⟨rfl, C8_token_expiry_invariant [ClientOp.refreshAt 0 (Except.ok tok3600)] "freshTok" rfl⟩
